import Mathlib

/-!
Verification development for the eLCA Bonsai add-on
(`src/ifc_library_creator.py` and `src/__init__.py`).

Python floats are modelled as rationals and Python strings as Lean strings.
Component dicts become structures whose absent keys are `none`.
-/

/-- One lifecycle-process reference attached to a component
(a dict with optional keys `uuid` and `process_name` in the source). -/
structure LifecycleProcess where
  uuid : Option String
  process_name : Option String
deriving DecidableEq, Repr

/-- One material component of a building element (a dict in the source;
absent keys are modelled as `none`). -/
structure Component where
  name : Option String
  quantity : Option String
  layer_thickness : Option ℚ
  lifecycle_processes : List LifecycleProcess
deriving DecidableEq, Repr

/-- A building element extracted from the eLCA HTML report. -/
structure BauteilElement where
  name : String
  category_code : String
  components : List Component
deriving DecidableEq, Repr

/-- Helper for `pySplit`: walk the characters accumulating the current token. -/
def splitWsAux : List Char → List Char → List (List Char)
  | [], acc => if acc.isEmpty then [] else [acc.reverse]
  | c :: cs, acc =>
    if c.isWhitespace then
      if acc.isEmpty then splitWsAux cs [] else acc.reverse :: splitWsAux cs []
    else splitWsAux cs (c :: acc)

/-- Models Python `str.split()` with no arguments: split on runs of
whitespace, dropping empty pieces. -/
def pySplit (s : String) : List String :=
  (splitWsAux s.data []).map (fun l => String.mk l)

/-- Models `str.replace(',', '.')` on the numeric token. -/
def commaToDot (s : String) : String :=
  String.mk (s.data.map (fun c => if c = ',' then '.' else c))

/-- Models `str.lower()` (ASCII case folding as in `Char.toLower`). -/
def pyLower (s : String) : String :=
  String.mk (s.data.map Char.toLower)

/-- Helper for `pyFloat`: split a character list at every dot. -/
def splitDotAux : List Char → List Char → List (List Char)
  | [], acc => [acc.reverse]
  | c :: cs, acc =>
    if c = '.' then acc.reverse :: splitDotAux cs []
    else splitDotAux cs (c :: acc)

/-- Numeric value of an ASCII digit. -/
def digitVal (c : Char) : ℕ := c.toNat - 48

/-- Value of a digit string read in base 10. -/
def decimalVal (cs : List Char) : ℕ := cs.foldl (fun a c => 10 * a + digitVal c) 0

/-- The digit-level reading of a decimal literal: sign, integer part,
fractional part and the number of fractional digits. -/
structure PyFloatRep where
  neg : Bool
  intPart : ℕ
  fracPart : ℕ
  fracLen : ℕ
deriving DecidableEq, Repr

/-- Models the Python builtin `float()` restricted to plain decimal literals
(optional sign, digits, at most one decimal point).  Special forms such as
exponents, `inf`/`nan` and underscores are outside the model.  Returns `none`
where `float()` raises `ValueError`. -/
def pyFloatParse (s : String) : Option PyFloatRep :=
  let withSign : Bool × List Char :=
    match s.data with
    | '-' :: r => (true, r)
    | '+' :: r => (false, r)
    | r => (false, r)
  let neg := withSign.1
  let body := withSign.2
  match splitDotAux body [] with
  | [a] =>
    if !a.isEmpty && a.all Char.isDigit then
      some ⟨neg, decimalVal a, 0, 0⟩
    else none
  | [a, b] =>
    if (!a.isEmpty || !b.isEmpty) && a.all Char.isDigit && b.all Char.isDigit then
      some ⟨neg, decimalVal a, decimalVal b, b.length⟩
    else none
  | _ => none

/-- The rational value of a parsed decimal literal. -/
def PyFloatRep.toRat (r : PyFloatRep) : ℚ :=
  (if r.neg then (-1 : ℚ) else 1) * ((r.intPart : ℚ) + (r.fracPart : ℚ) / (10 : ℚ) ^ r.fracLen)

/-- The value of `float()` on a string in the model: parse, then read off the
rational value. -/
def pyFloat (s : String) : Option ℚ :=
  (pyFloatParse s).map PyFloatRep.toRat

/-- The fixed fallback thickness used when parsing the quantity string fails
(`ifc_library_creator.py` line 108). -/
def defaultThicknessOnParseFailure : ℚ := 1 / 100

/-- Shallow embedding of the thickness resolution inlined in
`create_ifc_library_from_bauteil_elements` (`ifc_library_creator.py`
lines 86-108).  `thickness` starts at `0.0`; a non-empty quantity string is
split on whitespace, the first token (commas turned into dots) goes through
`float()`, the second token (default `"mm"`) selects the unit conversion;
`ValueError`/`IndexError` fall back to the default constant. -/
def resolveThicknessFromQuantity (quantity_text : String) : ℚ :=
  if quantity_text = "" then 0
  else
    match pySplit quantity_text with
    | [] => defaultThicknessOnParseFailure
    | numTok :: rest =>
      let numeric_part := commaToDot numTok
      let unit_part := match rest with
        | [] => "mm"
        | u :: _ => u
      match pyFloat numeric_part with
      | none => defaultThicknessOnParseFailure
      | some thickness_value =>
        if pyLower unit_part = "mm" then thickness_value / 1000
        else if pyLower unit_part = "cm" then thickness_value / 100
        else if pyLower unit_part = "m" then thickness_value
        else thickness_value / 1000

/-- The fallback component name `f'Component_{idx}'`
(`ifc_library_creator.py` line 83). -/
def defaultComponentName (idx : ℕ) : String := "Component_" ++ toString idx

/-- The name chosen for a component's material and layer:
`component.get('name', f'Component_{idx}')`. -/
def componentDisplayName (idx : ℕ) (c : Component) : String :=
  c.name.getD (defaultComponentName idx)

/-- One emitted `IfcMaterialLayer` (lines 137-142). -/
structure MaterialLayerEnt where
  material : String
  layerThickness : ℚ
  name : String
deriving DecidableEq, Repr

/-- One emitted `IfcMaterialLayerSet` (lines 77-78 and 148). -/
structure MaterialLayerSetEnt where
  layerSetName : String
  materialLayers : List MaterialLayerEnt
deriving DecidableEq, Repr

/-- One emitted `IfcWallType` (lines 152-164). -/
structure WallTypeEnt where
  name : String
  description : String
  elementType : String
deriving DecidableEq, Repr

/-- The part of the emitted IFC library the claims quantify over: materials,
oekobaudat property sets, material layer sets and wall types.  The constant
header entities (owner history, units, project, library information) are the
same for every input and are left implicit here; their creation order is
captured by `createLibraryTrace` below. -/
structure IfcLibraryGraph where
  materials : List String
  psets : List (String × String)
  layerSets : List MaterialLayerSetEnt
  wallTypes : List WallTypeEnt
deriving DecidableEq, Repr

/-- The graph of a freshly created `ifcopenshell.file()`. -/
def emptyLibraryGraph : IfcLibraryGraph := ⟨[], [], [], []⟩

/-- The `IfcMaterialLayer` created for one component (lines 136-142): its
LayerThickness is re-parsed from the raw `quantity` string at emission time. -/
def componentLayer (idx : ℕ) (c : Component) : MaterialLayerEnt :=
  { material := componentDisplayName idx c,
    layerThickness := resolveThicknessFromQuantity (c.quantity.getD ""),
    name := componentDisplayName idx c }

/-- The `pset_oekobaudat` entries created for one component (lines 113-134):
one per lifecycle process whose `uuid` value is truthy (present, non-empty). -/
def componentPsets (idx : ℕ) (c : Component) : List (String × String) :=
  c.lifecycle_processes.filterMap (fun p =>
    match p.uuid with
    | some u => if u = "" then none else some (componentDisplayName idx c, u)
    | none => none)

/-- Result of the inner `for idx, component in enumerate(...)` loop: the
component list as the loop leaves it, the created materials, psets and
material layers, in loop order. -/
structure CompEmit where
  comps : List Component
  mats : List String
  psets : List (String × String)
  layers : List MaterialLayerEnt
deriving DecidableEq, Repr

/-- Shallow embedding of the inner component loop (lines 82-144).  The loop
body only reads `name`, `quantity` and `lifecycle_processes`; the threaded
component list records what the loop leaves behind. -/
def emitComponents (idx : ℕ) : List Component → CompEmit
  | [] => ⟨[], [], [], []⟩
  | c :: cs =>
    let r := emitComponents (idx + 1) cs
    ⟨c :: r.comps,
     componentDisplayName idx c :: r.mats,
     componentPsets idx c ++ r.psets,
     componentLayer idx c :: r.layers⟩

/-- Shallow embedding of one iteration of the element loop (lines 70-184):
an element without components is skipped; otherwise one
`IfcMaterialLayerSet` is created, the component loop runs, and if the layer
list is non-empty one `IfcWallType` (with its material/library associations)
is created. -/
def emitElement (g : IfcLibraryGraph) (e : BauteilElement) :
    BauteilElement × IfcLibraryGraph :=
  if e.components = [] then (e, g)
  else
    let layer_set_name := e.category_code ++ " " ++ e.name
    let r := emitComponents 0 e.components
    let g1 : IfcLibraryGraph :=
      { g with
        materials := g.materials ++ r.mats,
        psets := g.psets ++ r.psets,
        layerSets := g.layerSets ++ [⟨layer_set_name, r.layers⟩] }
    let g2 :=
      if r.layers = [] then g1
      else
        { g1 with
          wallTypes := g1.wallTypes ++
            [⟨layer_set_name, "Wall type for " ++ e.name, layer_set_name⟩] }
    ({ e with components := r.comps }, g2)

/-- The outer loop over all elements, threading the element list through so
that any mutation of it would be visible in the result. -/
def emitLoop (g : IfcLibraryGraph) :
    List BauteilElement → List BauteilElement × IfcLibraryGraph
  | [] => ([], g)
  | e :: rest =>
    let p := emitElement g e
    let q := emitLoop p.2 rest
    (p.1 :: q.1, q.2)

/-- Shallow embedding of `create_ifc_library_from_bauteil_elements`
(`ifc_library_creator.py` lines 12-189), restricted to the entities the
claims quantify over.  The first projection is the element list as the
function leaves it; the final write to disk is modelled by
`createLibraryTrace` below. -/
def create_ifc_library_from_bauteil_elements (bauteil_elements : List BauteilElement) :
    List BauteilElement × IfcLibraryGraph :=
  emitLoop emptyLibraryGraph bauteil_elements

/-- The number of building elements with at least one component. -/
def elementsWithComponents (els : List BauteilElement) : ℕ :=
  els.countP (fun e => !e.components.isEmpty)

/-- Replace every component's matched `layer_thickness` value. -/
def overrideLayerThickness (t : Component → Option ℚ) (els : List BauteilElement) :
    List BauteilElement :=
  els.map (fun e =>
    { e with components := e.components.map (fun c => { c with layer_thickness := t c }) })

/-- Modelled from the spec: one layer-thickness record extracted from the
eLCA project XML (spec section 3, `LayerThicknessRecord`); the extractor
itself (`elca_parser.py`) is not part of the sources. -/
structure LayerThicknessRecord where
  element_key : String
  layer_name : String
  thickness_value : ℚ
  unit : String
deriving DecidableEq, Repr

/-- Modelled from the spec: the unit conversion applied by the XML layer
matcher (spec section 4.2: mm → /1000, cm → /100, m → unchanged, unknown
unit treated as mm). -/
def convertUnitToMeters (v : ℚ) (unit : String) : ℚ :=
  if pyLower unit = "mm" then v / 1000
  else if pyLower unit = "cm" then v / 100
  else if pyLower unit = "m" then v
  else v / 1000

/-- Modelled from the spec: attaching one XML record's thickness to the
matched component (spec section 4.2).  The matching predicate itself is an
open design choice (spec section 9), so it is a parameter `find` returning
the element/component position of the best match, or `none` when the record
is unmatched (unmatched records do not raise). -/
def matchOne (find : List BauteilElement → LayerThicknessRecord → Option (ℕ × ℕ))
    (els : List BauteilElement) (r : LayerThicknessRecord) : List BauteilElement :=
  match find els r with
  | none => els
  | some (i, j) =>
    match els.get? i with
    | none => els
    | some e =>
      match e.components.get? j with
      | none => els
      | some c =>
        let c2 : Component :=
          { c with layer_thickness := some (convertUnitToMeters r.thickness_value r.unit) }
        let e2 : BauteilElement := { e with components := e.components.set j c2 }
        els.set i e2

/-- Modelled from the spec: the XML layer matcher walks every XML record and
enriches the matched components in place (spec section 4.2). -/
def matchElements (find : List BauteilElement → LayerThicknessRecord → Option (ℕ × ℕ))
    (els : List BauteilElement) (recs : List LayerThicknessRecord) : List BauteilElement :=
  recs.foldl (matchOne find) els

/-- Modelled from the spec: the summary returned by
`get_layer_thickness_summary` — total XML elements seen and total layers
with thickness greater than zero (spec section 4.2); these are the two
fields `ELCA_OT_LoadProject.execute` reads. -/
structure LayerSummary where
  total_elements : ℕ
  total_layers : ℕ
deriving DecidableEq, Repr

/-- Modelled from the spec: computing the layer summary from the XML records
alone. -/
def layerSummaryOf (recs : List LayerThicknessRecord) : LayerSummary :=
  { total_elements := ((recs.map LayerThicknessRecord.element_key).dedup).length,
    total_layers := (recs.filter (fun r => decide (0 < r.thickness_value))).length }

/-- The custom scene properties the add-on stores
(`__init__.py`: the keys listed in `ELCA_OT_ResetData.execute`).  A key that
was never written is `none`; `elca_layer_data` holds the stringified summary
and is modelled by the summary value itself. -/
structure Scene where
  elca_html_path : Option String := none
  elca_xml_path : Option String := none
  elca_html_data : Option String := none
  elca_matched_data : Option String := none
  elca_layer_data : Option LayerSummary := none
  elca_bauteil_elements : Option String := none
deriving DecidableEq, Repr

/-- The environment a `ELCA_OT_LoadProject.execute` call runs in: the module
flag `dependencies_installed`, the filesystem, and the behaviour of the
(spec-modelled) `ELCAComponentExtractor` on the given files, including the
open matching predicate and the pickle/base64 serializer (which may fail). -/
structure ElcaEnv where
  depsInstalled : Bool
  pathExists : String → Bool
  extractHtml : String → List BauteilElement
  xmlRecords : String → List LayerThicknessRecord
  find : List BauteilElement → LayerThicknessRecord → Option (ℕ × ℕ)
  serialize : List BauteilElement → Option String

/-- Modelled from the spec: `ELCAComponentExtractor(html, xml).extract_bauteil_elements()` —
parse the HTML into elements, then (when an XML path is given) enrich them
with the matched XML layer thicknesses (spec sections 4.1-4.2). -/
def extract_bauteil_elements (env : ElcaEnv) (htmlPath : String)
    (xmlPath : Option String) : List BauteilElement :=
  match xmlPath with
  | none => env.extractHtml htmlPath
  | some xp => matchElements env.find (env.extractHtml htmlPath) (env.xmlRecords xp)

/-- The `num_layers_with_thickness` count of `ELCA_OT_LoadProject.execute`
(`__init__.py` lines 168-178): components whose `layer_thickness` is not
None and greater than zero. -/
def numLayersWithThickness (els : List BauteilElement) : ℕ :=
  (els.map (fun e =>
    (e.components.filter (fun c =>
      match c.layer_thickness with
      | some t => decide (0 < t)
      | none => false)).length)).sum

/-- The severity of an operator report message. -/
inductive ReportKind where
  | info
  | warning
  | error
deriving DecidableEq, Repr

/-- The value returned by an operator's `execute`. -/
inductive OpResult where
  | finished
  | cancelled
deriving DecidableEq, Repr

/-- Everything observable about one `execute` call: the scene as left
behind, the return value, the reports raised, and the
`num_layers_with_thickness` count it computed (`none` when cancelled). -/
structure ExecOutcome where
  scene : Scene
  result : OpResult
  reports : List ReportKind
  matchedCount : Option ℕ
deriving Repr

/-- Shallow embedding of `ELCA_OT_LoadProject.execute`
(`__init__.py` lines 138-211): abort unless the HTML results file was
loaded first and still exists; otherwise store the XML path, re-run the
extractor on both files, compute the matched-layer count, store the match
flag (and summary, when any XML layer was seen), and store the serialized
element list (empty string when serialization fails). -/
def loadProjectExecute (env : ElcaEnv) (scene : Scene) (filepath : String) : ExecOutcome :=
  if ¬ env.depsInstalled then
    ⟨scene, .cancelled, [.error], none⟩
  else
    match scene.elca_html_path with
    | none => ⟨scene, .cancelled, [.error], none⟩
    | some hp =>
      if hp = "" ∨ env.pathExists hp = false then
        ⟨scene, .cancelled, [.error], none⟩
      else
        let scene1 := { scene with elca_xml_path := some filepath }
        let els := extract_bauteil_elements env hp (some filepath)
        let summary := layerSummaryOf (env.xmlRecords filepath)
        let cnt := numLayersWithThickness els
        let scene2 :=
          if 0 < summary.total_layers then
            { scene1 with elca_matched_data := some "true", elca_layer_data := some summary }
          else
            { scene1 with elca_matched_data := some "false" }
        let reps : List ReportKind :=
          if 0 < summary.total_layers then [.info] else [.warning]
        let scene3 := { scene2 with elca_bauteil_elements := some ((env.serialize els).getD "") }
        ⟨scene3, .finished, reps, some cnt⟩

/-- A concrete environment and scene for the operator witnesses. -/
def demoEnv : ElcaEnv :=
  { depsInstalled := true,
    pathExists := fun _ => true,
    extractHtml := fun _ => [⟨"Wall A", "331", [⟨some "Gips", some "200,00 mm", none, []⟩]⟩],
    xmlRecords := fun _ => [],
    find := fun _ _ => none,
    serialize := fun _ => none }

def demoScene : Scene := { elca_html_path := some "results.html" }

/-- One side-effecting step of the two library functions, in program order:
creating an entity in memory, opening an input file, or writing a file to
disk. -/
inductive Instr where
  | create (entityType : String)
  | openFile (path : String)
  | write (path : String)
deriving DecidableEq, Repr

/-- The filesystem: the library graph stored at each path, if any. -/
def FileSys : Type := String → Option IfcLibraryGraph

/-- Run a list of instructions: `create` and `openFile` may raise (the step
at which the runtime error happens is chosen by the `oracle`), stopping
execution; `write` replaces the destination file with the constructed
`content`.  Returns the index of the failing step (if any) together with
the filesystem as left behind. -/
def runTrace (oracle : ℕ → Bool) (content : Option IfcLibraryGraph) :
    List Instr → ℕ → FileSys → Option ℕ × FileSys
  | [], _, fs => (none, fs)
  | Instr.create _ :: rest, n, fs =>
    if oracle n then (some n, fs) else runTrace oracle content rest (n + 1) fs
  | Instr.openFile _ :: rest, n, fs =>
    if oracle n then (some n, fs) else runTrace oracle content rest (n + 1) fs
  | Instr.write p :: rest, n, fs =>
    runTrace oracle content rest (n + 1) (fun q => if q = p then content else fs q)

/-- The fixed header entities created at the top of
`create_ifc_library_from_bauteil_elements` (lines 24-67), in program order. -/
def preludeInstrs : List Instr :=
  [Instr.create "IfcPerson", Instr.create "IfcOrganization",
   Instr.create "IfcPersonAndOrganization", Instr.create "IfcApplication",
   Instr.create "IfcOwnerHistory", Instr.create "IfcUnitAssignment",
   Instr.create "IfcSIUnit", Instr.create "IfcProject",
   Instr.create "IfcLibraryInformation"]

/-- The entities created for one lifecycle process (lines 114-134): nothing
unless the process carries a truthy uuid. -/
def processInstrs (p : LifecycleProcess) : List Instr :=
  match p.uuid with
  | some u =>
    if u = "" then []
    else
      [Instr.create "IfcIdentifier", Instr.create "IfcPropertySingleValue",
       Instr.create "IfcURIReference", Instr.create "IfcPropertySingleValue",
       Instr.create "IfcMaterialProperties"]
  | none => []

/-- The entities created for one component (lines 82-144). -/
def componentInstrs (c : Component) : List Instr :=
  Instr.create "IfcMaterial" :: c.lifecycle_processes.flatMap processInstrs
    ++ [Instr.create "IfcMaterialLayer"]

/-- The entities created for one element (lines 70-184): skipped entirely
without components; the wall type and its associations are created when the
layer list is non-empty, which inside this branch is always the case. -/
def elementInstrs (e : BauteilElement) : List Instr :=
  if e.components = [] then []
  else
    Instr.create "IfcMaterialLayerSet" :: e.components.flatMap componentInstrs
      ++ [Instr.create "IfcWallType", Instr.create "IfcRelAssociatesMaterial",
          Instr.create "IfcRelAssociatesLibrary"]

/-- The full effect trace of `create_ifc_library_from_bauteil_elements`
(lines 12-189): all entity creation first, then the single
`ifc_file.write(output_path)` (line 187) as the last step. -/
def createLibraryTrace (els : List BauteilElement) (output_path : String) : List Instr :=
  preludeInstrs ++ els.flatMap elementInstrs ++ [Instr.write output_path]

/-- What `attach_library_to_project` finds in one layer of the opened
library file. -/
structure LibLayer where
  hasMaterial : Bool
  classificationRefs : ℕ
deriving DecidableEq, Repr

/-- What `attach_library_to_project` finds for one wall type of the opened
library file. -/
structure LibWallType where
  hasMaterialAssociation : Bool
  associationIsLayerSet : Bool
  layers : List LibLayer
deriving DecidableEq, Repr

/-- The relevant content of the opened library file. -/
structure LibContent where
  hasLibraryInfo : Bool
  wallTypes : List LibWallType
deriving DecidableEq, Repr

/-- The relevant content of the opened project file. -/
structure ProjContent where
  hasProject : Bool
  hasOwnerHistory : Bool
deriving DecidableEq, Repr

/-- Owner-history creation in the project file (lines 229-243): five
entities unless one already exists. -/
def ownerHistoryInstrs (hasOwnerHistory : Bool) : List Instr :=
  if hasOwnerHistory then []
  else
    [Instr.create "IfcPerson", Instr.create "IfcOrganization",
     Instr.create "IfcPersonAndOrganization", Instr.create "IfcApplication",
     Instr.create "IfcOwnerHistory"]

/-- Entities created while copying one library layer (lines 285-325):
layers without a material are skipped. -/
def libLayerInstrs (l : LibLayer) : List Instr :=
  if l.hasMaterial then
    Instr.create "IfcMaterial" ::
      (List.replicate l.classificationRefs
        [Instr.create "IfcClassificationReference",
         Instr.create "IfcRelAssociatesClassification"]).flatten
      ++ [Instr.create "IfcMaterialLayer"]
  else []

/-- Entities created while copying one wall type (lines 260-364). -/
def libWallTypeInstrs (w : LibWallType) : List Instr :=
  if ¬ w.hasMaterialAssociation then []
  else if ¬ w.associationIsLayerSet then []
  else
    Instr.create "IfcMaterialLayerSet" :: w.layers.flatMap libLayerInstrs
      ++ (if w.layers.any LibLayer.hasMaterial then
            [Instr.create "IfcWallType", Instr.create "IfcRelAssociatesMaterial",
             Instr.create "IfcRelAssociatesLibrary"]
          else [])

/-- The full effect trace of `attach_library_to_project` (lines 191-375):
two opens, the owner-history and library-information entities, the per-wall
copies, and the single `project_file.write(ifc_project_path)` (line 367) as
the last step — or no write at all on the early returns. -/
def attachTrace (ifc_project_path ifc_library_path : String)
    (lib : LibContent) (proj : ProjContent) : List Instr :=
  [Instr.openFile ifc_project_path, Instr.openFile ifc_library_path] ++
    if ¬ lib.hasLibraryInfo then []
    else if ¬ proj.hasProject then []
    else
      ownerHistoryInstrs proj.hasOwnerHistory ++
        [Instr.create "IfcOrganization", Instr.create "IfcLibraryInformation"] ++
        lib.wallTypes.flatMap libWallTypeInstrs ++ [Instr.write ifc_project_path]

/-- An instruction list without `write` steps. -/
def noWrites (l : List Instr) : Prop :=
  ∀ i ∈ l, ∀ p, i ≠ Instr.write p

/-- Evaluation of the parser on the spec's decimal-comma example. -/
theorem pyFloat_comma_example : pyFloat (commaToDot "200,00") = some 200 := by
  simp only [pyFloat,
    show pyFloatParse (commaToDot "200,00") = some ⟨false, 200, 0, 2⟩ from by decide,
    Option.map_some]
  norm_num [PyFloatRep.toRat]

/-- Claim C1: for every quantity string of the form "<number> <unit>", the
resolved thickness in meters is the value divided by 1000 for unit mm,
divided by 100 for cm, unchanged for m, and divided by 1000 for any other
unit; decimal commas in the numeric part are accepted. -/
theorem claim_C1_unit_conversion (q numTok unit : String) (v : ℚ)
    (hq : q ≠ "")
    (hsplit : pySplit q = [numTok, unit])
    (hv : pyFloat (commaToDot numTok) = some v) :
    resolveThicknessFromQuantity q =
      if pyLower unit = "mm" then v / 1000
      else if pyLower unit = "cm" then v / 100
      else if pyLower unit = "m" then v
      else v / 1000 := by
  simp only [resolveThicknessFromQuantity, if_neg hq, hsplit, hv]

/-- Witness for C1 at the spec's example: "200,00 mm" resolves to 0.2 m. -/
theorem claim_C1_witness : resolveThicknessFromQuantity "200,00 mm" = 1 / 5 := by
  have h := claim_C1_unit_conversion "200,00 mm" "200,00" "mm" 200
    (by decide) (by decide) pyFloat_comma_example
  rw [h, if_pos (by decide)]
  norm_num

/-- Claim C2: a present but unparseable quantity string is non-fatal: the
resolution falls back to the fixed 0.01 m default, and a component carrying
such a quantity still produces its material layer (with that thickness). -/
theorem claim_C2_parse_failure_default (q : String)
    (hq : q ≠ "")
    (hfail : pySplit q = [] ∨
      ∃ numTok rest, pySplit q = numTok :: rest ∧ pyFloat (commaToDot numTok) = none) :
    resolveThicknessFromQuantity q = 1 / 100 ∧
    ∀ (idx : ℕ) (c : Component), c.quantity = some q →
      (componentLayer idx c).layerThickness = 1 / 100 := by
  have hmain : resolveThicknessFromQuantity q = 1 / 100 := by
    rcases hfail with h | ⟨numTok, rest, hsp, hpf⟩
    · simp only [resolveThicknessFromQuantity, if_neg hq, h, defaultThicknessOnParseFailure]
    · simp only [resolveThicknessFromQuantity, if_neg hq, hsp, hpf, defaultThicknessOnParseFailure]
  refine ⟨hmain, ?_⟩
  intro idx c hc
  show resolveThicknessFromQuantity (c.quantity.getD "") = 1 / 100
  rw [hc]
  exact hmain

/-- Witness for C2 at the concrete unparseable quantity "abc mm". -/
theorem claim_C2_witness :
    resolveThicknessFromQuantity "abc mm" = 1 / 100 ∧
    (componentLayer 0 ⟨some "Gips", some "abc mm", none, []⟩).layerThickness = 1 / 100 := by
  have h := claim_C2_parse_failure_default "abc mm" (by decide)
    (Or.inr ⟨"abc", ["mm"], by decide, by decide⟩)
  exact ⟨h.1, h.2 0 _ rfl⟩

/-- Claim C5 is false as stated: a quantity string with a negative numeric
part resolves to a negative thickness.  At "-200,00 mm" the code produces
-0.2 m. -/
theorem claim_C5_counterexample : resolveThicknessFromQuantity "-200,00 mm" < 0 := by
  have hpf : pyFloat (commaToDot "-200,00") = some (-200) := by
    simp only [pyFloat,
      show pyFloatParse (commaToDot "-200,00") = some ⟨true, 200, 0, 2⟩ from by decide,
      Option.map_some]
    norm_num [PyFloatRep.toRat]
  have h := claim_C1_unit_conversion "-200,00 mm" "-200,00" "mm" (-200)
    (by decide) (by decide) hpf
  rw [h, if_pos (by decide)]
  norm_num

/-- Claim C5 (amended): the resolved thickness is non-negative whenever the
numeric part of the quantity string does not parse to a negative value;
the defaults (0.0 for empty, 0.01 for parse failure) are non-negative, but a
negative numeric part yields a negative thickness. -/
theorem claim_C5_amended_nonneg (q : String)
    (h : ∀ numTok rest v, pySplit q = numTok :: rest →
        pyFloat (commaToDot numTok) = some v → 0 ≤ v) :
    0 ≤ resolveThicknessFromQuantity q := by
  by_cases hq : q = ""
  · simp [resolveThicknessFromQuantity, hq]
  · rcases hs : pySplit q with _ | ⟨numTok, rest⟩
    · simp only [resolveThicknessFromQuantity, if_neg hq, hs, defaultThicknessOnParseFailure]
      norm_num
    · rcases hf : pyFloat (commaToDot numTok) with _ | v
      · simp only [resolveThicknessFromQuantity, if_neg hq, hs, hf, defaultThicknessOnParseFailure]
        norm_num
      · have hv := h numTok rest v hs hf
        have h1000 : (0 : ℚ) ≤ v / 1000 := div_nonneg hv (by norm_num)
        have h100 : (0 : ℚ) ≤ v / 100 := div_nonneg hv (by norm_num)
        simp only [resolveThicknessFromQuantity, if_neg hq, hs, hf]
        split
        · exact h1000
        · split
          · exact h100
          · split
            · exact hv
            · exact h1000

/-- Witness for the amended C5 at the spec's example string. -/
theorem claim_C5_amended_witness : (0 : ℚ) ≤ resolveThicknessFromQuantity "200,00 mm" := by
  apply claim_C5_amended_nonneg
  intro numTok rest v hs hf
  rw [show pySplit "200,00 mm" = ["200,00", "mm"] from by decide] at hs
  injection hs with h1 h2
  rw [← h1] at hf
  rw [pyFloat_comma_example] at hf
  injection hf with hv
  rw [← hv]
  norm_num

/-- The component loop leaves the component list exactly as it found it. -/
theorem emitComponents_comps (idx : ℕ) (cs : List Component) :
    (emitComponents idx cs).comps = cs := by
  induction cs generalizing idx with
  | nil => rfl
  | cons c cs ih => simp only [emitComponents, ih]

/-- One material layer is created per component. -/
theorem emitComponents_layers_length (idx : ℕ) (cs : List Component) :
    (emitComponents idx cs).layers.length = cs.length := by
  induction cs generalizing idx with
  | nil => rfl
  | cons c cs ih => simp only [emitComponents, List.length_cons, ih]

/-- The element loop returns every element unchanged. -/
theorem emitElement_fst (g : IfcLibraryGraph) (e : BauteilElement) :
    (emitElement g e).1 = e := by
  unfold emitElement
  split
  · rfl
  · simp only [emitComponents_comps]

theorem emitLoop_fst (els : List BauteilElement) :
    ∀ g : IfcLibraryGraph, (emitLoop g els).1 = els := by
  induction els with
  | nil => intro g; rfl
  | cons e rest ih =>
    intro g
    simp only [emitLoop, emitElement_fst, ih]

/-- How one element iteration changes the number of layer sets. -/
theorem emitElement_layerSets_length (g : IfcLibraryGraph) (e : BauteilElement) :
    (emitElement g e).2.layerSets.length =
      g.layerSets.length + (if e.components = [] then 0 else 1) := by
  unfold emitElement
  split
  · simp [*]
  · next h =>
    simp only [if_neg h]
    split <;> simp

/-- How one element iteration changes the number of wall types. -/
theorem emitElement_wallTypes_length (g : IfcLibraryGraph) (e : BauteilElement) :
    (emitElement g e).2.wallTypes.length =
      g.wallTypes.length + (if e.components = [] then 0 else 1) := by
  unfold emitElement
  split
  · simp [*]
  · next h =>
    simp only [if_neg h]
    have hne : (emitComponents 0 e.components).layers ≠ [] := by
      intro hnil
      have := emitComponents_layers_length 0 e.components
      rw [hnil] at this
      exact h (List.eq_nil_of_length_eq_zero this.symm)
    rw [if_neg hne]
    simp

theorem emitLoop_layerSets_length (els : List BauteilElement) :
    ∀ g : IfcLibraryGraph,
      (emitLoop g els).2.layerSets.length =
        g.layerSets.length + elementsWithComponents els := by
  induction els with
  | nil => intro g; simp [emitLoop, elementsWithComponents]
  | cons e rest ih =>
    intro g
    simp only [emitLoop, ih, emitElement_layerSets_length, elementsWithComponents,
      List.countP_cons]
    rcases h : e.components with _ | ⟨c, cs⟩ <;> (simp [h]; try omega)

theorem emitLoop_wallTypes_length (els : List BauteilElement) :
    ∀ g : IfcLibraryGraph,
      (emitLoop g els).2.wallTypes.length =
        g.wallTypes.length + elementsWithComponents els := by
  induction els with
  | nil => intro g; simp [emitLoop, elementsWithComponents]
  | cons e rest ih =>
    intro g
    simp only [emitLoop, ih, emitElement_wallTypes_length, elementsWithComponents,
      List.countP_cons]
    rcases h : e.components with _ | ⟨c, cs⟩ <;> (simp [h]; try omega)

/-- Claim C4: an element with zero components is skipped entirely (the graph
is untouched), and the output contains exactly one IfcMaterialLayerSet and
one IfcWallType per element with at least one component. -/
theorem claim_C4_one_set_per_nonempty_element (els : List BauteilElement) :
    (∀ (e : BauteilElement) (g : IfcLibraryGraph),
        e.components = [] → emitElement g e = (e, g))
    ∧ (create_ifc_library_from_bauteil_elements els).2.layerSets.length =
        elementsWithComponents els
    ∧ (create_ifc_library_from_bauteil_elements els).2.wallTypes.length =
        elementsWithComponents els := by
  refine ⟨?_, ?_, ?_⟩
  · intro e g h
    unfold emitElement
    rw [if_pos h]
  · simpa [create_ifc_library_from_bauteil_elements, emptyLibraryGraph]
      using emitLoop_layerSets_length els emptyLibraryGraph
  · simpa [create_ifc_library_from_bauteil_elements, emptyLibraryGraph]
      using emitLoop_wallTypes_length els emptyLibraryGraph

/-- Witness for C4: a two-element input, one element empty and one with a
single component, yields exactly one layer set and one wall type, and the
empty element leaves the graph untouched. -/
theorem claim_C4_witness :
    emitElement emptyLibraryGraph ⟨"Wall B", "330", []⟩ =
      (⟨"Wall B", "330", []⟩, emptyLibraryGraph)
    ∧ (create_ifc_library_from_bauteil_elements
        [⟨"Wall B", "330", []⟩,
         ⟨"Wall A", "331", [⟨some "Gips", some "200,00 mm", none, []⟩]⟩]).2.layerSets.length = 1 := by
  have h := claim_C4_one_set_per_nonempty_element
    [⟨"Wall B", "330", []⟩,
     ⟨"Wall A", "331", [⟨some "Gips", some "200,00 mm", none, []⟩]⟩]
  exact ⟨h.1 ⟨"Wall B", "330", []⟩ emptyLibraryGraph rfl, h.2.1.trans (by decide)⟩

/-- Claim C10: emission treats the element list as read-only; every element,
with all its names, category codes, quantity strings, layer thicknesses,
process references and lengths, comes back unchanged. -/
theorem claim_C10_emission_readonly (els : List BauteilElement) :
    (create_ifc_library_from_bauteil_elements els).1 = els
    ∧ ((create_ifc_library_from_bauteil_elements els).1.map BauteilElement.name = els.map BauteilElement.name)
    ∧ ((create_ifc_library_from_bauteil_elements els).1.map BauteilElement.category_code = els.map BauteilElement.category_code)
    ∧ ((create_ifc_library_from_bauteil_elements els).1.map BauteilElement.components = els.map BauteilElement.components)
    ∧ (create_ifc_library_from_bauteil_elements els).1.length = els.length := by
  have h : (create_ifc_library_from_bauteil_elements els).1 = els :=
    emitLoop_fst els emptyLibraryGraph
  exact ⟨h, by rw [h], by rw [h], by rw [h], by rw [h]⟩

theorem componentDisplayName_override (idx : ℕ) (c : Component) (v : Option ℚ) :
    componentDisplayName idx { c with layer_thickness := v } = componentDisplayName idx c := rfl

theorem componentPsets_override (idx : ℕ) (c : Component) (v : Option ℚ) :
    componentPsets idx { c with layer_thickness := v } = componentPsets idx c := rfl

theorem componentLayer_override (idx : ℕ) (c : Component) (v : Option ℚ) :
    componentLayer idx { c with layer_thickness := v } = componentLayer idx c := rfl

theorem emitComponents_override (t : Component → Option ℚ) (idx : ℕ) (cs : List Component) :
    (emitComponents idx (cs.map (fun c => { c with layer_thickness := t c }))).mats
        = (emitComponents idx cs).mats
    ∧ (emitComponents idx (cs.map (fun c => { c with layer_thickness := t c }))).psets
        = (emitComponents idx cs).psets
    ∧ (emitComponents idx (cs.map (fun c => { c with layer_thickness := t c }))).layers
        = (emitComponents idx cs).layers := by
  induction cs generalizing idx with
  | nil => exact ⟨rfl, rfl, rfl⟩
  | cons c cs ih =>
    obtain ⟨h1, h2, h3⟩ := ih (idx + 1)
    refine ⟨?_, ?_, ?_⟩ <;>
      simp only [List.map_cons, emitComponents, h1, h2, h3,
        componentDisplayName_override, componentPsets_override, componentLayer_override]

theorem emitElement_override (t : Component → Option ℚ) (g : IfcLibraryGraph)
    (e : BauteilElement) :
    (emitElement g
      { e with components := e.components.map (fun c => { c with layer_thickness := t c }) }).2
      = (emitElement g e).2 := by
  obtain ⟨h1, h2, h3⟩ := emitComponents_override t 0 e.components
  unfold emitElement
  rcases hc : e.components with _ | ⟨c, cs⟩
  · simp [hc]
  · rw [← hc]
    rw [if_neg (by simp [hc]), if_neg (by simp [hc])]
    simp only [h1, h2, h3]

theorem emitLoop_override (t : Component → Option ℚ) (els : List BauteilElement) :
    ∀ g : IfcLibraryGraph,
      (emitLoop g (overrideLayerThickness t els)).2 = (emitLoop g els).2 := by
  induction els with
  | nil => intro g; rfl
  | cons e rest ih =>
    intro g
    simp only [overrideLayerThickness, List.map_cons] at *
    simp only [emitLoop, emitElement_override, ih]

/-- Claim C3: the emitted LayerThickness is recomputed from the raw quantity
string alone; the matched `layer_thickness` value is never read (the graph
is invariant under arbitrarily rewriting it), and an empty or absent
quantity yields thickness 0.0 while still producing a material layer for
every component. -/
theorem claim_C3_emission_reparses (els : List BauteilElement)
    (t : Component → Option ℚ) (idx : ℕ) (c : Component) (e : BauteilElement)
    (g : IfcLibraryGraph) :
    (create_ifc_library_from_bauteil_elements (overrideLayerThickness t els)).2
      = (create_ifc_library_from_bauteil_elements els).2
    ∧ (componentLayer idx c).layerThickness
        = resolveThicknessFromQuantity (c.quantity.getD "")
    ∧ (c.quantity.getD "" = "" → (componentLayer idx c).layerThickness = 0)
    ∧ (e.components ≠ [] →
        (emitElement g e).2.layerSets =
          g.layerSets ++
            [⟨e.category_code ++ " " ++ e.name, (emitComponents 0 e.components).layers⟩]
        ∧ (emitComponents 0 e.components).layers.length = e.components.length) := by
  refine ⟨emitLoop_override t els emptyLibraryGraph, rfl, ?_, ?_⟩
  · intro hq
    show resolveThicknessFromQuantity (c.quantity.getD "") = 0
    rw [hq]
    rfl
  · intro hne
    constructor
    · unfold emitElement
      rw [if_neg hne]
      by_cases hl : (emitComponents 0 e.components).layers = [] <;> simp [hl]
    · exact emitComponents_layers_length 0 e.components

/-- Witness for C3 at concrete inputs: overriding the matched thickness of a
one-element list does not change the graph, and a component with no
quantity still yields a layer of thickness 0. -/
theorem claim_C3_witness :
    (create_ifc_library_from_bauteil_elements
        (overrideLayerThickness (fun _ => some 5)
          [⟨"Wall A", "331", [⟨some "Gips", none, none, []⟩]⟩])).2
      = (create_ifc_library_from_bauteil_elements
          [⟨"Wall A", "331", [⟨some "Gips", none, none, []⟩]⟩]).2
    ∧ (componentLayer 0 ⟨some "Gips", none, none, []⟩).layerThickness = 0
    ∧ (emitComponents 0 [⟨some "Gips", none, none, []⟩]).layers.length = 1 := by
  have h := claim_C3_emission_reparses
    [⟨"Wall A", "331", [⟨some "Gips", none, none, []⟩]⟩]
    (fun _ => some 5) 0 ⟨some "Gips", none, none, []⟩
    ⟨"Wall A", "331", [⟨some "Gips", none, none, []⟩]⟩ emptyLibraryGraph
  refine ⟨h.1, h.2.2.1 rfl, ?_⟩
  exact (h.2.2.2 (by simp)).2

/-- When the preconditions hold (dependencies installed, HTML path stored,
non-empty and existing), `ELCA_OT_LoadProject.execute` finishes, computes
its matched count from a fresh extraction of the two files, keeps the HTML
path, and stores the match flag according to the XML layer summary. -/
theorem loadProject_run (env : ElcaEnv) (scene : Scene) (fp hp : String)
    (hdeps : env.depsInstalled = true)
    (hhtml : scene.elca_html_path = some hp)
    (hne : hp ≠ "") (hex : env.pathExists hp = true) :
    (loadProjectExecute env scene fp).result = OpResult.finished
    ∧ (loadProjectExecute env scene fp).matchedCount
        = some (numLayersWithThickness (extract_bauteil_elements env hp (some fp)))
    ∧ (loadProjectExecute env scene fp).scene.elca_html_path = some hp
    ∧ (loadProjectExecute env scene fp).reports
        = (if 0 < (layerSummaryOf (env.xmlRecords fp)).total_layers
            then [ReportKind.info] else [ReportKind.warning])
    ∧ (loadProjectExecute env scene fp).scene.elca_matched_data
        = some (if 0 < (layerSummaryOf (env.xmlRecords fp)).total_layers
            then "true" else "false") := by
  have hcond : ¬ (hp = "" ∨ env.pathExists hp = false) := by
    rintro (h | h)
    · exact hne h
    · rw [hex] at h
      exact absurd h (by simp)
  have hd : ¬ ¬ (env.depsInstalled = true) := by simp [hdeps]
  simp only [loadProjectExecute, hhtml, if_neg hd, if_neg hcond]
  refine ⟨trivial, trivial, ?_, trivial, ?_⟩
  · show Scene.elca_html_path _ = some hp
    split <;> simp [hhtml]
  · show Scene.elca_matched_data _ = _
    split <;> simp

/-- Claim C6: an XML file with zero layer records yields a summary with
`total_layers = 0`; the operation still finishes (the condition is a
warning, not an error), the match flag is stored as "false", and the
matcher leaves every component — hence every thickness — unchanged. -/
theorem claim_C6_zero_layers_warning (env : ElcaEnv) (scene : Scene) (fp hp : String)
    (hdeps : env.depsInstalled = true)
    (hhtml : scene.elca_html_path = some hp)
    (hne : hp ≠ "") (hex : env.pathExists hp = true)
    (hzero : env.xmlRecords fp = []) :
    (layerSummaryOf (env.xmlRecords fp)).total_layers = 0
    ∧ (loadProjectExecute env scene fp).result = OpResult.finished
    ∧ (loadProjectExecute env scene fp).reports = [ReportKind.warning]
    ∧ (loadProjectExecute env scene fp).scene.elca_matched_data = some "false"
    ∧ matchElements env.find (env.extractHtml hp) (env.xmlRecords fp)
        = env.extractHtml hp := by
  have hsum : (layerSummaryOf (env.xmlRecords fp)).total_layers = 0 := by
    rw [hzero]; rfl
  obtain ⟨hres, _, _, hreps, hmd⟩ := loadProject_run env scene fp hp hdeps hhtml hne hex
  have hnotpos : ¬ 0 < (layerSummaryOf (env.xmlRecords fp)).total_layers := by
    rw [hsum]
    exact lt_irrefl 0
  refine ⟨hsum, hres, ?_, ?_, ?_⟩
  · rw [hreps, if_neg hnotpos]
  · rw [hmd, if_neg hnotpos]
  · rw [hzero]
    rfl

/-- Witness for C6 at a concrete environment whose XML has no layers. -/
theorem claim_C6_witness :
    (layerSummaryOf (demoEnv.xmlRecords "project.xml")).total_layers = 0
    ∧ (loadProjectExecute demoEnv demoScene "project.xml").result = OpResult.finished
    ∧ (loadProjectExecute demoEnv demoScene "project.xml").reports = [ReportKind.warning]
    ∧ matchElements demoEnv.find (demoEnv.extractHtml "results.html")
        (demoEnv.xmlRecords "project.xml") = demoEnv.extractHtml "results.html" := by
  have h := claim_C6_zero_layers_warning demoEnv demoScene "project.xml" "results.html"
    rfl rfl (by decide) rfl rfl
  exact ⟨h.1, h.2.1, h.2.2.1, h.2.2.2.2⟩

/-- Claim C7: requesting the XML match with no stored HTML path, an empty
stored path, or a stored path that no longer exists, surfaces an error and
cancels, leaving the scene exactly as it was (no XML path, match flag or
serialized element list is written). -/
theorem claim_C7_precondition_abort (env : ElcaEnv) (scene : Scene) (fp : String)
    (h : scene.elca_html_path = none ∨ scene.elca_html_path = some "" ∨
      ∃ hp, scene.elca_html_path = some hp ∧ env.pathExists hp = false) :
    (loadProjectExecute env scene fp).scene = scene
    ∧ (loadProjectExecute env scene fp).result = OpResult.cancelled
    ∧ (loadProjectExecute env scene fp).reports = [ReportKind.error] := by
  unfold loadProjectExecute
  by_cases hdeps : env.depsInstalled = true
  · rcases h with h | h | ⟨hp, h, hnex⟩
    · simp [hdeps, h]
    · simp [hdeps, h]
    · simp [hdeps, h, hnex]
  · simp [hdeps]

/-- Witness for C7: no HTML was loaded, the scene stays untouched. -/
theorem claim_C7_witness :
    (loadProjectExecute demoEnv {} "project.xml").scene = ({} : Scene)
    ∧ (loadProjectExecute demoEnv {} "project.xml").result = OpResult.cancelled
    ∧ (loadProjectExecute demoEnv {} "project.xml").reports = [ReportKind.error] :=
  claim_C7_precondition_abort demoEnv {} "project.xml" (Or.inl rfl)

/-- Claim C8: matching is idempotent — running the XML load twice on the
same HTML+XML pair finishes both times and computes the same
matched-thickness count, independent of the state the first run stored. -/
theorem claim_C8_match_idempotent (env : ElcaEnv) (scene : Scene) (fp hp : String)
    (hdeps : env.depsInstalled = true)
    (hhtml : scene.elca_html_path = some hp)
    (hne : hp ≠ "") (hex : env.pathExists hp = true) :
    (loadProjectExecute env scene fp).result = OpResult.finished
    ∧ (loadProjectExecute env (loadProjectExecute env scene fp).scene fp).result
        = OpResult.finished
    ∧ (loadProjectExecute env (loadProjectExecute env scene fp).scene fp).matchedCount
        = (loadProjectExecute env scene fp).matchedCount := by
  obtain ⟨hres1, hcnt1, hhp1, _, _⟩ := loadProject_run env scene fp hp hdeps hhtml hne hex
  obtain ⟨hres2, hcnt2, _, _, _⟩ :=
    loadProject_run env (loadProjectExecute env scene fp).scene fp hp hdeps hhp1 hne hex
  exact ⟨hres1, hres2, by rw [hcnt1, hcnt2]⟩

/-- Witness for C8 at the concrete demo environment. -/
theorem claim_C8_witness :
    (loadProjectExecute demoEnv demoScene "project.xml").result = OpResult.finished
    ∧ (loadProjectExecute demoEnv
        (loadProjectExecute demoEnv demoScene "project.xml").scene "project.xml").result
        = OpResult.finished
    ∧ (loadProjectExecute demoEnv
        (loadProjectExecute demoEnv demoScene "project.xml").scene "project.xml").matchedCount
        = (loadProjectExecute demoEnv demoScene "project.xml").matchedCount :=
  claim_C8_match_idempotent demoEnv demoScene "project.xml" "results.html"
    rfl rfl (by decide) rfl

/-- Instructions other than `write` never change the filesystem. -/
theorem runTrace_noWrites (oracle : ℕ → Bool) (content : Option IfcLibraryGraph)
    (l : List Instr) :
    ∀ n fs, noWrites l → (runTrace oracle content l n fs).2 = fs := by
  induction l with
  | nil => intro n fs _; rfl
  | cons i rest ih =>
    intro n fs hnw
    have hrest : noWrites rest := fun j hj => hnw j (List.mem_cons_of_mem i hj)
    cases i with
    | create t =>
      simp only [runTrace]
      split
      · rfl
      · exact ih (n + 1) fs hrest
    | openFile p =>
      simp only [runTrace]
      split
      · rfl
      · exact ih (n + 1) fs hrest
    | write p =>
      exact absurd rfl (hnw (Instr.write p) (List.mem_cons_self _ _) p)

/-- Running an appended trace: either the first part fails (and the second
never runs) or the second part continues from the first's state. -/
theorem runTrace_append (oracle : ℕ → Bool) (content : Option IfcLibraryGraph)
    (l1 l2 : List Instr) :
    ∀ n fs,
      runTrace oracle content (l1 ++ l2) n fs =
        match runTrace oracle content l1 n fs with
        | (some e, fs1) => (some e, fs1)
        | (none, fs1) => runTrace oracle content l2 (n + l1.length) fs1 := by
  induction l1 with
  | nil => intro n fs; simp [runTrace]
  | cons i rest ih =>
    intro n fs
    cases i with
    | create t =>
      simp only [List.cons_append, runTrace, List.append_eq]
      split
      · rfl
      · rw [ih (n + 1) fs]
        simp only [List.length_cons]
        rcases h : runTrace oracle content rest (n + 1) fs with ⟨e, fs1⟩
        cases e <;> simp [h, Nat.add_assoc, Nat.add_comm 1 rest.length]
    | openFile p =>
      simp only [List.cons_append, runTrace, List.append_eq]
      split
      · rfl
      · rw [ih (n + 1) fs]
        simp only [List.length_cons]
        rcases h : runTrace oracle content rest (n + 1) fs with ⟨e, fs1⟩
        cases e <;> simp [h, Nat.add_assoc, Nat.add_comm 1 rest.length]
    | write p =>
      simp only [List.cons_append, runTrace, List.append_eq]
      rw [ih (n + 1) _]
      simp only [List.length_cons]
      rcases h : runTrace oracle content rest (n + 1) _ with ⟨e, fs1⟩
      cases e <;> simp [h, Nat.add_assoc, Nat.add_comm 1 rest.length]

/-- A trace consisting of non-writes followed by one final write leaves the
filesystem unchanged whenever it fails. -/
theorem runTrace_failure_unchanged (oracle : ℕ → Bool)
    (content : Option IfcLibraryGraph) (l : List Instr) (p : String)
    (hnw : noWrites l) (n : ℕ) (fs : FileSys)
    (hfail : (runTrace oracle content (l ++ [Instr.write p]) n fs).1.isSome = true) :
    (runTrace oracle content (l ++ [Instr.write p]) n fs).2 = fs := by
  rw [runTrace_append] at hfail ⊢
  rcases h : runTrace oracle content l n fs with ⟨e, fs1⟩
  have hfs1 : fs1 = fs := by
    have := runTrace_noWrites oracle content l n fs hnw
    rw [h] at this
    exact this
  cases e with
  | some k => simp [h, hfs1]
  | none =>
    rw [h] at hfail
    simp only [runTrace] at hfail
    cases hfail

theorem noWrites_append {l1 l2 : List Instr} (h1 : noWrites l1) (h2 : noWrites l2) :
    noWrites (l1 ++ l2) := by
  intro i hi p
  rcases List.mem_append.mp hi with h | h
  · exact h1 i h p
  · exact h2 i h p

theorem noWrites_cons {i : Instr} {l : List Instr} (hi : ∀ p, i ≠ Instr.write p)
    (hl : noWrites l) : noWrites (i :: l) := by
  intro j hj p
  rcases List.mem_cons.mp hj with rfl | h
  · exact hi p
  · exact hl j h p

theorem noWrites_nil : noWrites [] := by
  intro i hi p
  simp at hi

theorem noWrites_flatMap {α : Type} (f : α → List Instr) (l : List α)
    (h : ∀ x ∈ l, noWrites (f x)) : noWrites (l.flatMap f) := by
  intro i hi p
  rcases List.mem_flatMap.mp hi with ⟨x, hx, hifx⟩
  exact h x hx i hifx p

theorem noWrites_create (t : String) (l : List Instr) (hl : noWrites l) :
    noWrites (Instr.create t :: l) :=
  noWrites_cons (fun p => by simp) hl

theorem noWrites_preludeInstrs : noWrites preludeInstrs := by
  repeat
    first
    | exact noWrites_nil
    | apply noWrites_create

theorem noWrites_processInstrs (pr : LifecycleProcess) : noWrites (processInstrs pr) := by
  rcases hu : pr.uuid with _ | u <;> simp only [processInstrs, hu]
  · exact noWrites_nil
  · by_cases h : u = ""
    · rw [if_pos h]
      exact noWrites_nil
    · rw [if_neg h]
      repeat
        first
        | exact noWrites_nil
        | apply noWrites_create

theorem noWrites_componentInstrs (c : Component) : noWrites (componentInstrs c) := by
  unfold componentInstrs
  apply noWrites_create
  apply noWrites_append
  · exact noWrites_flatMap _ _ (fun pr _ => noWrites_processInstrs pr)
  · repeat
      first
      | exact noWrites_nil
      | apply noWrites_create

theorem noWrites_elementInstrs (e : BauteilElement) : noWrites (elementInstrs e) := by
  unfold elementInstrs
  split
  · exact noWrites_nil
  · apply noWrites_create
    apply noWrites_append
    · exact noWrites_flatMap _ _ (fun c _ => noWrites_componentInstrs c)
    · repeat
        first
        | exact noWrites_nil
        | apply noWrites_create

theorem noWrites_ownerHistoryInstrs (b : Bool) : noWrites (ownerHistoryInstrs b) := by
  unfold ownerHistoryInstrs
  split
  · exact noWrites_nil
  · repeat
      first
      | exact noWrites_nil
      | apply noWrites_create

theorem noWrites_libLayerInstrs (l : LibLayer) : noWrites (libLayerInstrs l) := by
  unfold libLayerInstrs
  split
  · apply noWrites_create
    apply noWrites_append
    · intro i hi p
      rcases List.mem_flatten.mp hi with ⟨sub, hsub, hisub⟩
      have hsubeq := List.eq_of_mem_replicate hsub
      rw [hsubeq] at hisub
      rcases List.mem_cons.mp hisub with rfl | h
      · simp
      · rcases List.mem_singleton.mp h with rfl
        simp
    · repeat
        first
        | exact noWrites_nil
        | apply noWrites_create
  · exact noWrites_nil

theorem noWrites_libWallTypeInstrs (w : LibWallType) : noWrites (libWallTypeInstrs w) := by
  unfold libWallTypeInstrs
  split
  · exact noWrites_nil
  · split
    · exact noWrites_nil
    · apply noWrites_create
      apply noWrites_append
      · exact noWrites_flatMap _ _ (fun l _ => noWrites_libLayerInstrs l)
      · split
        · repeat
            first
            | exact noWrites_nil
            | apply noWrites_create
        · exact noWrites_nil

/-- A failing run of a trace whose only write (if any) is the final step
leaves the filesystem unchanged. -/
theorem runTrace_failure_cases (oracle : ℕ → Bool) (content : Option IfcLibraryGraph)
    (l : List Instr)
    (h : noWrites l ∨ ∃ l1 p, l = l1 ++ [Instr.write p] ∧ noWrites l1)
    (n : ℕ) (fs : FileSys)
    (hfail : (runTrace oracle content l n fs).1.isSome = true) :
    (runTrace oracle content l n fs).2 = fs := by
  rcases h with h | ⟨l1, p, rfl, h1⟩
  · exact runTrace_noWrites oracle content l n fs h
  · exact runTrace_failure_unchanged oracle content l1 p h1 n fs hfail

/-- Claim C9: in both `create_ifc_library_from_bauteil_elements` and
`attach_library_to_project`, the single write to disk is the last step of
the effect trace, after all in-memory construction; hence a run that fails
at any construction step leaves the filesystem (in particular the
destination file) unchanged. -/
theorem claim_C9_write_after_construction (oracle : ℕ → Bool)
    (content : Option IfcLibraryGraph) (fs : FileSys)
    (els : List BauteilElement) (output_path projPath libPath : String)
    (lib : LibContent) (proj : ProjContent) :
    ((runTrace oracle content (createLibraryTrace els output_path) 0 fs).1.isSome = true →
      (runTrace oracle content (createLibraryTrace els output_path) 0 fs).2 = fs)
    ∧ ((runTrace oracle content (attachTrace projPath libPath lib proj) 0 fs).1.isSome = true →
      (runTrace oracle content (attachTrace projPath libPath lib proj) 0 fs).2 = fs) := by
  constructor
  · intro hfail
    apply runTrace_failure_cases oracle content _ _ 0 fs hfail
    right
    refine ⟨preludeInstrs ++ els.flatMap elementInstrs, output_path, ?_, ?_⟩
    · simp [createLibraryTrace, List.append_assoc]
    · exact noWrites_append noWrites_preludeInstrs
        (noWrites_flatMap _ _ (fun e _ => noWrites_elementInstrs e))
  · intro hfail
    apply runTrace_failure_cases oracle content _ _ 0 fs hfail
    have hopens : noWrites [Instr.openFile projPath, Instr.openFile libPath] := by
      apply noWrites_cons (fun p => by simp)
      exact noWrites_cons (fun p => by simp) noWrites_nil
    unfold attachTrace
    split
    · left
      exact noWrites_append hopens noWrites_nil
    · split
      · left
        exact noWrites_append hopens noWrites_nil
      · right
        refine ⟨[Instr.openFile projPath, Instr.openFile libPath] ++
            (ownerHistoryInstrs proj.hasOwnerHistory ++
              ([Instr.create "IfcOrganization", Instr.create "IfcLibraryInformation"] ++
                lib.wallTypes.flatMap libWallTypeInstrs)), projPath, ?_, ?_⟩
        · simp [List.append_assoc]
        · apply noWrites_append hopens
          apply noWrites_append (noWrites_ownerHistoryInstrs _)
          apply noWrites_append
          · apply noWrites_create
            apply noWrites_create
            exact noWrites_nil
          · exact noWrites_flatMap _ _ (fun w _ => noWrites_libWallTypeInstrs w)

/-- Witness for C9: with an oracle that fails at the very first step (an
entity creation in one case, a file open in the other), the filesystem is
untouched. -/
theorem claim_C9_witness :
    (runTrace (fun _ => true) none (createLibraryTrace [] "library.ifc") 0
      (fun _ => none)).2 = (fun _ => none : FileSys)
    ∧ (runTrace (fun _ => true) none
        (attachTrace "project.ifc" "library.ifc" ⟨true, []⟩ ⟨true, true⟩) 0
        (fun _ => none)).2 = (fun _ => none : FileSys) := by
  have h := claim_C9_write_after_construction (fun _ => true) none (fun _ => none)
    [] "library.ifc" "project.ifc" "library.ifc" ⟨true, []⟩ ⟨true, true⟩
  exact ⟨h.1 rfl, h.2 rfl⟩
